import Mathlib

/-!
Verification of the latex2web HTML renderer (`src/main.rs`).

The document tree produced by the external converter is modelled as a rose
tree of element and text nodes.  The source library (roxmltree) stores parent
links on every node; the renderer consults the tree context only through the
chain of ancestor tags (`node.parent()` in the title branch, the parent walk
in `get_section_depth`), so the embedding passes the list of ancestor element
tags — nearest ancestor first — as an explicit parameter.  All functions keep
the names of the Rust functions they embed.
-/

/-- A node of the parsed document tree: an element with a tag, an attribute
list and ordered children, or a text node with its literal payload. -/
inductive Node where
  | element (tag : String) (attrs : List (String × String)) (children : List Node)
  | text (content : String)

/-- Attribute lookup, `node.attribute(name)` in roxmltree: the value of the
first attribute with the given name. -/
def attrOf (attrs : List (String × String)) (name : String) : Option String :=
  (attrs.find? (fun p => p.1 = name)).map (fun p => p.2)

/-- roxmltree `node.has_tag_name(tag)`: true for an element with that tag,
false for text nodes. -/
def hasTagName (n : Node) (tag : String) : Bool :=
  match n with
  | .element t _ _ => t = tag
  | .text _ => false

/-- roxmltree `node.text()`: for a text node its payload; for an element the
payload of its first child when that child is a text node, otherwise none. -/
def nodeText : Node → Option String
  | .text s => some s
  | .element _ _ cs =>
    match cs.head? with
    | some (.text s) => some s
    | _ => none

mutual
/-- Embeds `find_element` (src/main.rs lines 132-143): pre-order depth-first
search for the first element with the given tag, testing the node itself
before its children. -/
def find_element : Node → String → Option Node
  | .text _, _ => none
  | .element t a cs, tag =>
    if t = tag then some (.element t a cs) else find_element_list cs tag

/-- The child loop of `find_element`: first match over a child list. -/
def find_element_list : List Node → String → Option Node
  | [], _ => none
  | c :: rest, tag =>
    match find_element c tag with
    | some found => some found
    | none => find_element_list rest tag
end

mutual
/-- Same search as `find_element`, additionally returning the ancestor tag
chain of the match (nearest first).  In the source the match carries its
parent links implicitly; the renderer needs them in `process_node`. -/
def find_element_anc : Node → List String → String → Option (Node × List String)
  | .text _, _, _ => none
  | .element t a cs, anc, tag =>
    if t = tag then some (.element t a cs, anc)
    else find_element_anc_list cs (t :: anc) tag

/-- The child loop of `find_element_anc`. -/
def find_element_anc_list : List Node → List String → String → Option (Node × List String)
  | [], _, _ => none
  | c :: rest, anc, tag =>
    match find_element_anc c anc tag with
    | some found => some found
    | none => find_element_anc_list rest anc tag
end

/-- Embeds `extract_text_by_tag` (lines 145-151): find the first element with
the tag and return `element.text().unwrap_or("")`, or none when absent. -/
def extract_text_by_tag (n : Node) (tag : String) : Option String :=
  match find_element n tag with
  | some e => some ((nodeText e).getD "")
  | none => none

mutual
/-- Embeds `get_all_text` (lines 367-381): concatenation of all descendant
text payloads, in document order, with no separators. -/
def get_all_text : Node → String
  | .text s => s
  | .element _ _ cs => get_all_text_list cs

/-- The child loop of `get_all_text`. -/
def get_all_text_list : List Node → String
  | [] => ""
  | c :: rest => get_all_text c ++ get_all_text_list rest
end

/-- Whitespace test used by Rust `str::trim` (restricted to the ASCII
whitespace characters that occur in this development: space, tab, line feed,
carriage return). -/
def is_rust_space (c : Char) : Bool :=
  c == ' ' || c == '\t' || c == '\n' || c == '\r'

/-- Embeds Rust `str::trim`: drop leading and trailing whitespace. -/
def str_trim (s : String) : String :=
  String.mk (((s.toList.dropWhile is_rust_space).reverse.dropWhile is_rust_space).reverse)

/-- One step of `str::replace` with a single-character pattern: every
occurrence of the character `c` in `s` is replaced by the string `repl`. -/
def replaceChar (c : Char) (repl : String) (s : String) : String :=
  String.mk ((s.toList.map (fun x => if x = c then repl.toList else [x])).flatten)

/-- Embeds `html_escape` (lines 345-351): the five single-character
replacements applied in source order — ampersand, less-than, greater-than,
double quote (code point 34), apostrophe (code point 39). -/
def html_escape (s : String) : String :=
  replaceChar (Char.ofNat 39) "&#39;"
    (replaceChar (Char.ofNat 34) "&quot;"
      (replaceChar '>' "&gt;"
        (replaceChar '<' "&lt;"
          (replaceChar '&' "&amp;" s))))

/-- Embeds `get_section_depth` (lines 353-365) on the ancestor tag chain:
the parent walk counts the ancestors tagged `section`. -/
def get_section_depth : List String → Nat
  | [] => 0
  | t :: rest => (if t = "section" then 1 else 0) + get_section_depth rest

mutual
/-- Embeds `process_node` (lines 153-343), the core transducer.  `anc` is the
chain of ancestor element tags, nearest first; the source reads the same
information through parent links. -/
def process_node : Node → List String → String
  | .text s, _ =>
    let trimmed := str_trim s
    if trimmed = "" then "" else trimmed ++ " "
  | .element t attrs cs, anc =>
    if t = "tags" ∨ t = "tag" ∨ t = "ref" ∨ t = "bibref" then ""
    else if t = "section" then
      "<section>" ++ process_children cs (t :: anc) ++ "</section>"
    else if t = "title" then
      if anc.head? = some "document" then ""
      else
        let level := get_section_depth anc
        let h := "h" ++ toString (min (level + 1) 6)
        "<" ++ h ++ ">" ++ process_children cs (t :: anc) ++ "</" ++ h ++ ">"
    else if t = "para" ∨ t = "p" then
      "<p>" ++ process_children cs (t :: anc) ++ "</p>"
    else if t = "emph" ∨ t = "em" then
      "<em>" ++ process_children cs (t :: anc) ++ "</em>"
    else if t = "text" ∧ attrOf attrs "font" = some "bold" then
      "<strong>" ++ process_children cs (t :: anc) ++ "</strong>"
    else if t = "text" ∧ attrOf attrs "font" = some "typewriter" then
      "<code>" ++ process_children cs (t :: anc) ++ "</code>"
    else if t = "text" then
      process_children cs (t :: anc)
    else if t = "itemize" then
      "<ul>" ++ process_items cs (t :: anc) ++ "</ul>"
    else if t = "enumerate" then
      "<ol>" ++ process_items cs (t :: anc) ++ "</ol>"
    else if t = "tabular" ∨ t = "table" then
      "<div class=\"table-wrapper\"><table>" ++ process_rows cs (t :: anc) ++ "</table></div>"
    else if t = "graphics" ∨ t = "figure" then
      match attrOf attrs "graphic" with
      | some src =>
        let caption := ((cs.find? (fun c => hasTagName c "caption")).map get_all_text).getD ""
        "<figure>" ++ ("<img src=\"" ++ src ++ "\" alt=\"" ++ caption ++ "\">") ++
          (if caption = "" then "" else "<figcaption>" ++ caption ++ "</figcaption>") ++
          "</figure>"
      | none => process_children cs (t :: anc)
    else if t = "verbatim" ∨ t = "lstlisting" then
      "<pre><code class=\"language-" ++ ((attrOf attrs "language").getD "") ++ "\">" ++
        html_escape (get_all_text (.element t attrs cs)) ++ "</code></pre>"
    else if t = "Math" ∨ t = "math" then
      if attrOf attrs "mode" = some "display" then
        "<div class=\"math-display\">" ++ ("\\[" ++ get_all_text (.element t attrs cs) ++ "\\]") ++ "</div>"
      else
        "\\(" ++ get_all_text (.element t attrs cs) ++ "\\)"
    else if t = "creator" then ""
    else
      process_children cs (t :: anc)

/-- The plain child loop of `process_node`: concatenate the rendering of each
child (the child's ancestor chain is the caller's chain with the caller's tag
already pushed). -/
def process_children : List Node → List String → String
  | [], _ => ""
  | c :: rest, anc => process_node c anc ++ process_children rest anc

/-- The `itemize`/`enumerate` child loop: only children tagged `item`
contribute, each wrapping its rendered children in a list entry. -/
def process_items : List Node → List String → String
  | [], _ => ""
  | .element t _ cs :: rest, anc =>
    (if t = "item" then "<li>" ++ process_children cs ("item" :: anc) ++ "</li>" else "")
      ++ process_items rest anc
  | .text _ :: rest, anc => process_items rest anc

/-- The `tabular`/`table` row loop: only children tagged `tr` become rows. -/
def process_rows : List Node → List String → String
  | [], _ => ""
  | .element t _ cs :: rest, anc =>
    (if t = "tr" then "<tr>" ++ process_cells cs ("tr" :: anc) ++ "</tr>" else "")
      ++ process_rows rest anc
  | .text _ :: rest, anc => process_rows rest anc

/-- The row cell loop: children tagged `td` or `th` become cells, `td`
checked first as in the source. -/
def process_cells : List Node → List String → String
  | [], _ => ""
  | .element t _ cs :: rest, anc =>
    (if t = "td" then "<td>" ++ process_children cs ("td" :: anc) ++ "</td>"
     else if t = "th" then "<th>" ++ process_children cs ("th" :: anc) ++ "</th>"
     else "")
      ++ process_cells rest anc
  | .text _ :: rest, anc => process_cells rest anc
end

/-- Modelled from the spec: the payload of `themes/dark.css`, included in the
source through a resource-embedding macro; the file itself is not under
`src/`.  The spec describes it only as the dark CSS variant, so it is
modelled as an abstract, distinct text. -/
def dark_css : String := "/* dark theme css payload */"

/-- Modelled from the spec: the payload of `themes/clean-serif.css` (not
under `src/`), the default clean-serif CSS variant. -/
def clean_serif_css : String := "/* clean-serif theme css payload */"

/-- Embeds `get_theme_css` (lines 383-388): the name `dark` selects the dark
payload, every other name the clean-serif payload. -/
def get_theme_css (theme : String) : String :=
  if theme = "dark" then dark_css else clean_serif_css

/-- The author fragment built in `xml_to_html` (lines 74-82): a paragraph of
class `author` when the extracted author text is present and non-empty,
otherwise the empty string. -/
def author_html_of : Option String → String
  | some a => if a = "" then "" else "<p class=\"author\">" ++ a ++ "</p>"
  | none => ""

/-- The apostrophe character (code point 39) as a one-character string, used
to spell out the fixed output template. -/
def apostr : String := String.mk [Char.ofNat 39]

/-- Output template up to the page title inside `head`. -/
def tplA : String :=
  "<!DOCTYPE html>\n<html lang=\"en\">\n<head>\n    <meta charset=\"UTF-8\">\n    <meta name=\"viewport\" content=\"width=device-width, initial-scale=1.0\">\n    <title>"

/-- Output template between the page title and the theme CSS. -/
def tplB : String := "</title>\n    <style>\n"

/-- Output template between the theme CSS and the `h1` title text: the
stylesheet link and the MathJax configuration script. -/
def tplC : String :=
  "\n    </style>\n    <link rel=\"stylesheet\" href=\"https://cdnjs.cloudflare.com/ajax/libs/prism/1.29.0/themes/prism-tomorrow.min.css\">\n    <script>\n        MathJax = \x7b\n            tex: \x7b\n                inlineMath: [[" ++ apostr ++ "\\\\(" ++ apostr ++ ", " ++ apostr ++ "\\\\)" ++ apostr ++ "]],\n                displayMath: [[" ++ apostr ++ "\\\\[" ++ apostr ++ ", " ++ apostr ++ "\\\\]" ++ apostr ++ "]]\n            \x7d\n        \x7d;\n    </script>\n    <script src=\"https://cdn.jsdelivr.net/npm/mathjax@3/es5/tex-mml-chtml.js\"></script>\n</head>\n<body>\n    <article>\n        <header>\n            <h1 class=\"title\">"

/-- Output template between the `h1` title and the author fragment. -/
def tplD : String := "</h1>\n            "

/-- Output template between the author fragment and the body fragment. -/
def tplE : String := "\n        </header>\n        <main>\n"

/-- Output template after the body fragment: highlighter scripts and the
closing tags. -/
def tplF : String :=
  "\n        </main>\n    </article>\n    <script src=\"https://cdnjs.cloudflare.com/ajax/libs/prism/1.29.0/prism.min.js\"></script>\n    <script src=\"https://cdnjs.cloudflare.com/ajax/libs/prism/1.29.0/components/prism-python.min.js\"></script>\n    <script src=\"https://cdnjs.cloudflare.com/ajax/libs/prism/1.29.0/components/prism-java.min.js\"></script>\n    <script src=\"https://cdnjs.cloudflare.com/ajax/libs/prism/1.29.0/components/prism-c.min.js\"></script>\n    <script src=\"https://cdnjs.cloudflare.com/ajax/libs/prism/1.29.0/components/prism-cpp.min.js\"></script>\n    <script src=\"https://cdnjs.cloudflare.com/ajax/libs/prism/1.29.0/components/prism-javascript.min.js\"></script>\n    <script src=\"https://cdnjs.cloudflare.com/ajax/libs/prism/1.29.0/components/prism-bash.min.js\"></script>\n</body>\n</html>"

/-- Embeds `xml_to_html` (lines 58-129) from the parsed root element on:
extract title and author, render the `document` subtree (or the whole tree
when no `document` element exists), and splice everything into the fixed
template. -/
def xml_to_html (root : Node) (theme : String) : String :=
  let title := (extract_text_by_tag root "title").getD "Untitled"
  let author := extract_text_by_tag root "creator"
  let body_html :=
    match find_element_anc root [] "document" with
    | some found => process_node found.1 found.2
    | none => process_node root []
  let author_html := author_html_of author
  tplA ++ title ++ tplB ++ get_theme_css theme ++ tplC ++ title ++ tplD ++
    author_html ++ tplE ++ body_html ++ tplF

/-- Does the character list `pat` occur at the head of `s`? -/
def list_starts_with : List Char → List Char → Bool
  | [], _ => true
  | _ :: _, [] => false
  | p :: ps, c :: cs => p == c && list_starts_with ps cs

/-- Number of positions of `s` at which `pat` occurs, plus `acc`
(accumulator form, so that concrete evaluation is iterative). -/
def count_occ (pat : List Char) : List Char → Nat → Nat
  | [], acc => acc
  | c :: rest, acc =>
    match list_starts_with pat (c :: rest) with
    | true => count_occ pat rest (acc + 1)
    | false => count_occ pat rest acc

/-- Number of positions of the string `s` at which the substring `pat`
occurs. -/
def countSubstr (pat s : String) : Nat := count_occ pat.toList s.toList 0

/-- The tag identifiers that `process_node` dispatches on; every element
whose tag is not in this list is handled by the transparent default arm. -/
def recognized_tags : List String :=
  ["tags", "tag", "ref", "bibref", "section", "title", "para", "p", "emph", "em",
   "text", "itemize", "enumerate", "tabular", "table", "graphics", "figure",
   "verbatim", "lstlisting", "Math", "math", "creator"]

/-! ### Helper lemmas -/

/-- The plain child loop equals the fold of the per-child renderings. -/
theorem process_children_eq_foldr (l : List Node) (anc : List String) :
    process_children l anc =
      (l.map (fun c => process_node c anc)).foldr (fun a b => a ++ b) "" := by
  induction l with
  | nil => rfl
  | cons c rest ih => simp [process_children, ih]

/-! ### Claim theorems -/

/-- Input for the C1 counterexample: the first `title` element holds its text
inside an `em` child, so its first child is not a text node. -/
def c1_tree : Node :=
  .element "document" [] [.element "title" [] [.element "em" [] [.text "Hi"]]]

/-- C1 counterexample: `extract_text_by_tag` is not `find_element` composed
with the flattener `get_all_text`.  On `c1_tree` the match exists and its
flattened descendant text is `Hi`, but the function returns `some ""` because
the match's first child is not a text node. -/
theorem extract_text_not_flatten_of_match :
    extract_text_by_tag c1_tree "title" = some "" ∧
    (find_element c1_tree "title").map get_all_text = some "Hi" ∧
    extract_text_by_tag c1_tree "title" ≠ (find_element c1_tree "title").map get_all_text := by
  refine ⟨by decide, by decide, by decide⟩

/-- C1 (amended): `extract_text_by_tag` is `find_element` composed with the
first-text-child accessor (defaulting to the empty string when the match's
first child is not a text node), and it is none exactly when no element with
the tag exists; the full descendant flattening of the claim is not applied. -/
theorem extract_text_eq_find_first_text (n : Node) (tag : String) :
    extract_text_by_tag n tag = (find_element n tag).map (fun e => (nodeText e).getD "") := by
  unfold extract_text_by_tag
  cases find_element n tag <;> rfl

/-- Input for the C2 counterexample: the title's parent is a `document`
element that is not the root of the tree (the root is a `section`). -/
def c2_tree : Node :=
  .element "section" [] [.element "document" [] [.element "title" [] [.text "T"]]]

/-- C2 counterexample: the code suppresses a title whenever its parent is
tagged `document`, root or not.  In `c2_tree` the title's parent is a
non-root `document` element, it has one sectioning ancestor, so the claim
predicts the level-2 heading `<h2>T </h2>`; the code emits nothing. -/
theorem title_under_nonroot_document_suppressed :
    process_node (.element "title" [] [.text "T"]) ["document", "section"] = "" ∧
    (("" : String) ≠ "<h2>T </h2>") ∧
    process_node c2_tree [] = "<section></section>" ∧
    countSubstr "<h2>" (process_node c2_tree []) = 0 := by
  refine ⟨by decide, by decide, by decide, by decide⟩

/-- C2 (amended): a title whose parent element is tagged `document` (whether
or not that parent is the document root) renders as nothing; every other
title renders as a heading of level `min(N + 1, 6)` where `N` is the number
of ancestors tagged `section`, excluding the node itself. -/
theorem title_heading_level (attrs : List (String × String)) (cs : List Node)
    (anc : List String) :
    (anc.head? = some "document" → process_node (.element "title" attrs cs) anc = "") ∧
    (anc.head? ≠ some "document" →
      process_node (.element "title" attrs cs) anc =
        "<" ++ ("h" ++ toString (min (get_section_depth anc + 1) 6)) ++ ">" ++
          process_children cs ("title" :: anc) ++
          "</" ++ ("h" ++ toString (min (get_section_depth anc + 1) 6)) ++ ">") := by
  constructor
  · intro h
    simp [process_node, h]
  · intro h
    simp [process_node, h]

/-- C2 witness: a title with one sectioning ancestor and no `document` parent
becomes a level-2 heading. -/
theorem title_heading_level_witness :
    ((["section"] : List String).head? ≠ some "document") ∧
    process_node (.element "title" [] [.text "T"]) ["section"] = "<h2>T </h2>" := by
  refine ⟨by decide, ?_⟩
  rw [(title_heading_level [] [.text "T"] ["section"]).2 (by decide)]
  decide

/-- C3: the dropped tags render as the empty string for arbitrary children
and context — the transducer neither emits output nor descends. -/
theorem dropped_tags_render_empty (t : String) (attrs : List (String × String))
    (cs : List Node) (anc : List String)
    (h : t = "tags" ∨ t = "tag" ∨ t = "ref" ∨ t = "bibref") :
    process_node (.element t attrs cs) anc = "" := by
  simp only [process_node]
  rw [if_pos h]

/-- C3 witness: a `ref` element whose children contain renderable content
still renders as nothing, while the same content renders on its own. -/
theorem dropped_tags_render_empty_witness :
    (("ref" : String) = "tags" ∨ ("ref" : String) = "tag" ∨ ("ref" : String) = "ref" ∨
      ("ref" : String) = "bibref") ∧
    process_node (.element "ref" [] [.element "para" [] [.text "x"]]) [] = "" ∧
    process_node (.element "para" [] [.text "x"]) ["ref"] = "<p>x </p>" := by
  refine ⟨by decide, dropped_tags_render_empty "ref" [] [.element "para" [] [.text "x"]] [] (by decide), by decide⟩

/-- A child subtree used in the transparency example of C4. -/
def c4_para : Node := .element "para" [] [.text "x"]

/-- C4: an element whose tag matches no recognized dispatch case renders as
the concatenation, in child order, of the transducer applied to each child;
in particular wrapping a paragraph in an unknown `foo` element changes
nothing. -/
theorem unknown_tags_transparent :
    (∀ (t : String) (attrs : List (String × String)) (cs : List Node) (anc : List String),
      t ∉ recognized_tags →
      process_node (.element t attrs cs) anc =
        (cs.map (fun c => process_node c (t :: anc))).foldr (fun a b => a ++ b) "") ∧
    process_node (.element "foo" [] [c4_para]) [] = process_node c4_para [] := by
  constructor
  · intro t attrs cs anc h
    simp only [recognized_tags, List.mem_cons, List.not_mem_nil, or_false, not_or] at h
    obtain ⟨h1, h2, h3, h4, h5, h6, h7, h8, h9, h10, h11, h12, h13, h14, h15, h16, h17,
      h18, h19, h20, h21, h22⟩ := h
    simp [process_node, h1, h2, h3, h4, h5, h6, h7, h8, h9, h10, h11, h12, h13, h14, h15,
      h16, h17, h18, h19, h20, h21, h22, process_children_eq_foldr]
  · decide

/-- C4 witness: the unrecognized tag `unknowntag` is transparent around a
paragraph in a sectioned context. -/
theorem unknown_tags_transparent_witness :
    (("unknowntag" : String) ∉ recognized_tags) ∧
    process_node (.element "unknowntag" [] [c4_para]) ["section"] =
      (([c4_para].map (fun c => process_node c ("unknowntag" :: ["section"]))).foldr
        (fun a b => a ++ b) "") := by
  refine ⟨by decide, unknown_tags_transparent.1 "unknowntag" [] [c4_para] ["section"] (by decide)⟩

/-- C5: escaping asymmetry.  A `verbatim`/`lstlisting` element renders its
flattened descendant text through `html_escape` — the five replacements of
ampersand, less-than, greater-than, double quote and apostrophe, in that
order — inside a preformatted code container; a `Math`/`math` element renders
its flattened descendant text with no escaping at all, wrapped in display
delimiters when the `mode` attribute is `display` and in inline delimiters
otherwise. -/
theorem verbatim_escaped_math_unescaped :
    (∀ (t : String) (attrs : List (String × String)) (cs : List Node) (anc : List String),
      t = "verbatim" ∨ t = "lstlisting" →
      process_node (.element t attrs cs) anc =
        "<pre><code class=\"language-" ++ ((attrOf attrs "language").getD "") ++ "\">" ++
          html_escape (get_all_text (.element t attrs cs)) ++ "</code></pre>") ∧
    (∀ (t : String) (attrs : List (String × String)) (cs : List Node) (anc : List String),
      t = "Math" ∨ t = "math" →
      (attrOf attrs "mode" = some "display" →
        process_node (.element t attrs cs) anc =
          "<div class=\"math-display\">" ++
            ("\\[" ++ get_all_text (.element t attrs cs) ++ "\\]") ++ "</div>") ∧
      (attrOf attrs "mode" ≠ some "display" →
        process_node (.element t attrs cs) anc =
          "\\(" ++ get_all_text (.element t attrs cs) ++ "\\)")) := by
  constructor
  · intro t attrs cs anc h
    rcases h with rfl | rfl <;> simp [process_node, get_all_text]
  · intro t attrs cs anc h
    rcases h with rfl | rfl <;>
      exact ⟨fun hm => by simp [process_node, get_all_text, hm],
             fun hm => by simp [process_node, get_all_text, hm]⟩

/-- C5 witness: a code block escapes its payload while a math element passes
the same payload through verbatim, including an apostrophe (code point 39)
escaped only on the code path. -/
theorem verbatim_escaped_math_unescaped_witness :
    (((("verbatim" : String) = "verbatim" ∨ ("verbatim" : String) = "lstlisting")) ∧
      process_node (.element "verbatim" [("language", "py")] [.text "a<b&c"]) [] =
        "<pre><code class=\"language-py\">a&lt;b&amp;c</code></pre>") ∧
    ((("math" : String) = "Math" ∨ ("math" : String) = "math") ∧
      attrOf ([] : List (String × String)) "mode" ≠ some "display" ∧
      process_node (.element "math" [] [.text "a<b&c"]) [] = "\\(a<b&c\\)") := by
  refine ⟨⟨by decide, ?_⟩, by decide, by decide, ?_⟩
  · rw [verbatim_escaped_math_unescaped.1 "verbatim" [("language", "py")] [.text "a<b&c"] []
      (by decide)]
    decide
  · rw [(verbatim_escaped_math_unescaped.2 "math" [] [.text "a<b&c"] [] (by decide)).2
      (by decide)]
    decide

/-- Input for the C6 counterexample: the `caption` element is a descendant of
the graphics element but not a direct child. -/
def c6_tree : Node :=
  .element "graphics" [("graphic", "x.png")]
    [.element "wrap" [] [.element "caption" [] [.text "Fig 1"]]]

/-- C6 counterexample: the code reads the caption only from the direct
children of the graphics element.  In `c6_tree` a descendant `caption` with
flattened text `Fig 1` exists, yet the alternative text is empty and no
caption element is emitted, against the claim's prediction. -/
theorem graphics_deep_caption_ignored :
    process_node c6_tree [] = "<figure><img src=\"x.png\" alt=\"\"></figure>" ∧
    get_all_text (.element "caption" [] [.text "Fig 1"]) = "Fig 1" ∧
    countSubstr "Fig 1" (process_node c6_tree []) = 0 := by
  refine ⟨by decide, by decide, by decide⟩

/-- C6 (amended): for a `graphics`/`figure` element carrying the `graphic`
attribute, the output is a figure container with an image reference whose
source is the attribute value and whose alternative text is the flattened
text of the FIRST DIRECT CHILD tagged `caption` (empty when no direct child
is a caption; deeper descendants are not searched), followed by a caption
element exactly when that text is non-empty; without the attribute the
element renders transparently. -/
theorem graphics_figure_rendering (t : String) (attrs : List (String × String))
    (cs : List Node) (anc : List String) (h : t = "graphics" ∨ t = "figure") :
    (∀ src, attrOf attrs "graphic" = some src →
      process_node (.element t attrs cs) anc =
        "<figure>" ++
          ("<img src=\"" ++ src ++ "\" alt=\"" ++
            (((cs.find? (fun c => hasTagName c "caption")).map get_all_text).getD "") ++ "\">") ++
          (if (((cs.find? (fun c => hasTagName c "caption")).map get_all_text).getD "") = ""
            then ""
            else "<figcaption>" ++
              (((cs.find? (fun c => hasTagName c "caption")).map get_all_text).getD "") ++
              "</figcaption>") ++
          "</figure>") ∧
    (attrOf attrs "graphic" = none →
      process_node (.element t attrs cs) anc = process_children cs (t :: anc)) := by
  constructor
  · intro src hsrc
    rcases h with rfl | rfl <;> simp [process_node, hsrc]
  · intro hnone
    rcases h with rfl | rfl <;> simp [process_node, hnone]

/-- C6 witness: a graphics element with a direct `caption` child renders the
image with the caption as alternative text plus a caption element. -/
theorem graphics_figure_rendering_witness :
    (("graphics" : String) = "graphics" ∨ ("graphics" : String) = "figure") ∧
    attrOf [("graphic", "x.png")] "graphic" = some "x.png" ∧
    process_node
        (.element "graphics" [("graphic", "x.png")] [.element "caption" [] [.text "Fig 1"]]) [] =
      "<figure><img src=\"x.png\" alt=\"Fig 1\"><figcaption>Fig 1</figcaption></figure>" := by
  refine ⟨by decide, by decide, ?_⟩
  rw [(graphics_figure_rendering "graphics" [("graphic", "x.png")]
    [.element "caption" [] [.text "Fig 1"]] [] (by decide)).1 "x.png" (by decide)]
  decide

/-- The end-to-end example tree of C7: a document with title `Hi` and one
paragraph holding plain text `Hello ` and bold text `world`. -/
def c7_tree : Node :=
  .element "document" []
    [.element "title" [] [.text "Hi"],
     .element "para" []
       [.element "text" [] [.text "Hello "],
        .element "text" [("font", "bold")] [.text "world"]]]

/-- C7 counterexample: the claimed body fragment has no space before the
closing strong tag, but the transducer appends one space after every
non-empty text node, `world` included. -/
theorem example_body_fragment_differs :
    process_node c7_tree [] ≠ "<p>Hello <strong>world</strong></p>" := by decide

set_option maxRecDepth 2000 in
/-- C7 (amended): the body fragment for the example tree is
`<p>Hello <strong>world </strong></p>` — with the separating space the
transducer adds after every non-empty text node — the page title is `Hi`,
and no author paragraph is emitted anywhere in the assembled document. -/
theorem example_document_rendering :
    process_node c7_tree [] = "<p>Hello <strong>world </strong></p>" ∧
    (extract_text_by_tag c7_tree "title").getD "Untitled" = "Hi" ∧
    extract_text_by_tag c7_tree "creator" = none ∧
    author_html_of (extract_text_by_tag c7_tree "creator") = "" ∧
    countSubstr "<p>Hello <strong>world </strong></p>" (xml_to_html c7_tree "clean-serif") = 1 ∧
    countSubstr "<title>Hi</title>" (xml_to_html c7_tree "clean-serif") = 1 ∧
    countSubstr "<p class=\"author\"" (xml_to_html c7_tree "clean-serif") = 0 := by
  refine ⟨by decide, by decide, by decide, by decide, ?_, ?_, ?_⟩
  · decide
  · decide
  · decide

/-- A document without any `creator` element, for C8. -/
def c8_doc_no_creator : Node :=
  .element "document" [] [.element "para" [] [.text "body"]]

/-- A document whose `creator` element flattens to the empty string, for
C8 (its first child is absent, so extraction yields the empty default). -/
def c8_doc_empty_creator : Node :=
  .element "document" [] [.element "creator" [] [], .element "para" [] [.text "body"]]

/-- A document with author text `A. Writer`, for C8. -/
def c8_doc_author : Node :=
  .element "document" [] [.element "creator" [] [.text "A. Writer"], .element "para" [] [.text "body"]]

set_option maxRecDepth 2000 in
/-- C8: the author omission policy.  The author fragment is empty for an
extracted `some ""` and for `none`, and is a single author paragraph holding
the text for a non-empty extraction; accordingly the assembled documents
contain zero, zero, and exactly one author paragraph. -/
theorem author_paragraph_policy :
    (author_html_of (some "") = "") ∧
    (author_html_of none = "") ∧
    (∀ a : String, a ≠ "" → author_html_of (some a) = "<p class=\"author\">" ++ a ++ "</p>") ∧
    (extract_text_by_tag c8_doc_empty_creator "creator" = some "" ∧
      countSubstr "<p class=\"author\"" (xml_to_html c8_doc_empty_creator "clean-serif") = 0) ∧
    (extract_text_by_tag c8_doc_no_creator "creator" = none ∧
      countSubstr "<p class=\"author\"" (xml_to_html c8_doc_no_creator "clean-serif") = 0) ∧
    (extract_text_by_tag c8_doc_author "creator" = some "A. Writer" ∧
      countSubstr "<p class=\"author\">A. Writer</p>" (xml_to_html c8_doc_author "clean-serif") = 1 ∧
      countSubstr "<p class=\"author\"" (xml_to_html c8_doc_author "clean-serif") = 1) := by
  refine ⟨by decide, by decide, ?_, ⟨by decide, by decide⟩, ⟨by decide, by decide⟩,
    ⟨by decide, by decide, by decide⟩⟩
  intro a ha
  simp [author_html_of, ha]

/-- C8 witness: the non-empty author case at the concrete text `A. Writer`. -/
theorem author_paragraph_policy_witness :
    (("A. Writer" : String) ≠ "") ∧
    author_html_of (some "A. Writer") = "<p class=\"author\">A. Writer</p>" := by
  refine ⟨by decide, ?_⟩
  rw [author_paragraph_policy.2.2.1 "A. Writer" (by decide)]
  decide

/-- C9: theme resolution is a total lookup with silent fallback — `dark`
yields the dark payload and every other name, recognized or not, yields the
clean-serif payload, so any name other than `dark` resolves exactly as
`clean-serif` does and no name is rejected. -/
theorem theme_resolution_silent_fallback :
    get_theme_css "dark" = dark_css ∧
    (∀ t : String, t ≠ "dark" → get_theme_css t = get_theme_css "clean-serif") := by
  refine ⟨by decide, ?_⟩
  intro t ht
  simp [get_theme_css, ht]

/-- C9 witness: an unrecognized theme name resolves to the clean-serif
variant without error. -/
theorem theme_resolution_silent_fallback_witness :
    (("midnight-purple" : String) ≠ "dark") ∧
    get_theme_css "midnight-purple" = get_theme_css "clean-serif" :=
  ⟨by decide, theme_resolution_silent_fallback.2 "midnight-purple" (by decide)⟩

/-- A document whose title, author, image source and caption all carry
markup-significant characters, for C10. -/
def c10_tree : Node :=
  .element "document" []
    [.element "title" [] [.text "A<&B"],
     .element "creator" [] [.text "M & M"],
     .element "graphics" [("graphic", "x\" onerror=\"alert(1)")]
       [.element "caption" [] [.text "a<b&c"]]]

set_option maxRecDepth 2000 in
/-- C10: HTML escaping happens only in the verbatim/lstlisting branch.  The
assembled document is the fixed template with the extracted title, the
author fragment and the body fragment spliced in verbatim; the graphics
branch interpolates the `graphic` attribute value and the flattened caption
unescaped into the src and alt positions; math payloads pass through
unescaped while the identical verbatim payload is escaped; and concretely, a
title containing a raw less-than and ampersand reaches the title and h1
slots unchanged, as do a raw author text and a double-quote-laden image
source. -/
theorem escaping_only_in_verbatim_branch :
    (∀ (root : Node) (theme : String),
      xml_to_html root theme =
        tplA ++ ((extract_text_by_tag root "title").getD "Untitled") ++ tplB ++
          get_theme_css theme ++ tplC ++ ((extract_text_by_tag root "title").getD "Untitled") ++
          tplD ++ author_html_of (extract_text_by_tag root "creator") ++ tplE ++
          (match find_element_anc root [] "document" with
           | some found => process_node found.1 found.2
           | none => process_node root []) ++ tplF) ∧
    (∀ (t : String) (attrs : List (String × String)) (cs : List Node) (anc : List String)
      (src : String), t = "graphics" ∨ t = "figure" → attrOf attrs "graphic" = some src →
      process_node (.element t attrs cs) anc =
        "<figure>" ++
          ("<img src=\"" ++ src ++ "\" alt=\"" ++
            (((cs.find? (fun c => hasTagName c "caption")).map get_all_text).getD "") ++ "\">") ++
          (if (((cs.find? (fun c => hasTagName c "caption")).map get_all_text).getD "") = ""
            then ""
            else "<figcaption>" ++
              (((cs.find? (fun c => hasTagName c "caption")).map get_all_text).getD "") ++
              "</figcaption>") ++
          "</figure>") ∧
    (process_node (.element "math" [] [.text "a<b&c"]) [] = "\\(a<b&c\\)") ∧
    (process_node (.element "verbatim" [] [.text "a<b&c"]) [] =
      "<pre><code class=\"language-\">a&lt;b&amp;c</code></pre>") ∧
    (countSubstr "<title>A<&B</title>" (xml_to_html c10_tree "clean-serif") = 1) ∧
    (countSubstr "<h1 class=\"title\">A<&B</h1>" (xml_to_html c10_tree "clean-serif") = 1) ∧
    (countSubstr "<p class=\"author\">M & M</p>" (xml_to_html c10_tree "clean-serif") = 1) ∧
    (countSubstr "src=\"x\" onerror=\"alert(1)\"" (xml_to_html c10_tree "clean-serif") = 1) ∧
    (countSubstr "alt=\"a<b&c\"" (xml_to_html c10_tree "clean-serif") = 1) := by
  refine ⟨?_, ?_, by decide, by decide, by decide, by decide, by decide, by decide, by decide⟩
  · intro root theme
    rfl
  · intro t attrs cs anc src h hsrc
    rcases h with rfl | rfl <;> simp [process_node, hsrc]

/-- C10 witness: the graphics equation applied at a concrete element with no
caption child. -/
theorem escaping_only_in_verbatim_branch_witness :
    (("figure" : String) = "graphics" ∨ ("figure" : String) = "figure") ∧
    attrOf [("graphic", "img/a.png")] "graphic" = some "img/a.png" ∧
    process_node (.element "figure" [("graphic", "img/a.png")] []) [] =
      "<figure><img src=\"img/a.png\" alt=\"\"></figure>" := by
  refine ⟨by decide, by decide, ?_⟩
  rw [escaping_only_in_verbatim_branch.2.1 "figure" [("graphic", "img/a.png")] [] [] "img/a.png"
    (by decide) (by decide)]
  decide
